import Mathlib

/-!
Shallow embedding of the task-lifecycle subsystem of this repository:
the Task Model, the MongoDB-backed Task Store
(`actix-api-app/ActixWebTaskService/src/repository/mongodb.rs`), the
HTTP Task Service handlers
(`actix-api-app/ActixWebTaskService/src/api/task.rs`), and the worker
process (`actix-api-app/worker/src/main.rs`).

Modelling conventions:
- The MongoDB collection is an association list keyed by the
  `task_global_id` field; `find_one` is lookup by that key and
  `update_one` with upsert replaces-or-appends.
- A BSON document is a record of the seven fields the code reads or
  writes; each field is `Option String`, where `none` stands for any
  value on which `Document::get_str` errors (absent key, BSON null, or
  a non-string value).  `put_task` writes `none` for a `None`
  `result_file` because the `doc!` macro turns `Option::None` into
  BSON null and `get_str` errors on null.
- External effects that can fail (a MongoDB write, a Redis push, an
  HTTP transport) are passed in as explicit outcome parameters.
- `async` is irrelevant to the values computed and is dropped.
-/

deriving instance DecidableEq for Except

namespace TaskService

/-- Modelled from the spec: the file `model/task.rs` declared by
`mod model` is not under `src/`; §4.1 of the design gives the state
set `Created, InProgress, Paused, Completed, Failed`. -/
inductive TaskState where
  | Created
  | InProgress
  | Paused
  | Completed
  | Failed
deriving DecidableEq, Repr, Fintype

/-- Modelled from the spec (missing `model/task.rs`): the `Display`
rendering used by `put_task` via `task.state.to_string()`; the spec
names the states by exactly these words. -/
def TaskState.to_string : TaskState → String
  | .Created => "Created"
  | .InProgress => "InProgress"
  | .Paused => "Paused"
  | .Completed => "Completed"
  | .Failed => "Failed"

/-- Modelled from the spec (missing `model/task.rs`): the `FromStr`
parse used by `document_to_task`; §4.2 requires rejecting any string
that is not one of the five state names, never defaulting. -/
def TaskState.from_str (s : String) : Option TaskState :=
  if s = "Created" then some .Created
  else if s = "InProgress" then some .InProgress
  else if s = "Paused" then some .Paused
  else if s = "Completed" then some .Completed
  else if s = "Failed" then some .Failed
  else none

/-- The `Task` struct: field set as constructed in
`repository/mongodb.rs` (`document_to_task`) and serialized by the
worker's mirror struct in `worker/src/main.rs`. -/
structure Task where
  user_uuid : String
  task_uuid : String
  task_type : String
  state : TaskState
  source_file : String
  result_file : Option String
deriving DecidableEq, Repr

/-- Modelled from the spec (missing `model/task.rs`): §3 defines
`global_id` as a deterministic composite of the owning user id and the
task id; the separator choice is immaterial to every claim. -/
def Task.get_global_id (t : Task) : String :=
  t.user_uuid ++ "_" ++ t.task_uuid

/-- Modelled from the spec (missing `model/task.rs`): the pure
transition predicate of §4.1, the sole lifecycle gate.  Table:
Created→InProgress; InProgress→Paused, Completed, Failed;
Paused→InProgress; Completed and Failed have no outgoing edges. -/
def allowed_transition : TaskState → TaskState → Bool
  | .Created, .InProgress => true
  | .InProgress, .Paused => true
  | .InProgress, .Completed => true
  | .InProgress, .Failed => true
  | .Paused, .InProgress => true
  | _, _ => false

/-- Modelled from the spec (missing `model/task.rs`): the predicate
`can_transition_to` called by `state_transition` in `api/task.rs`. -/
def Task.can_transition_to (t : Task) (new_state : TaskState) : Bool :=
  allowed_transition t.state new_state

/-- Modelled from the spec (missing `model/task.rs`): §4.4 — `submit`
constructs a new Task in state `Created`; `result_file` starts absent.
The fresh `task_uuid` is a generated UUID, passed here explicitly. -/
def Task.new (user_id task_type source_file task_uuid : String) : Task :=
  { user_uuid := user_id
    task_uuid := task_uuid
    task_type := task_type
    state := TaskState.Created
    source_file := source_file
    result_file := none }

/-- A stored BSON document, restricted to the fields the repository
code reads or writes.  A field is `none` whenever `get_str` on it
would error (missing, null, or non-string). -/
structure Document where
  user_uuid : Option String
  task_uuid : Option String
  task_global_id : Option String
  task_type : Option String
  state : Option String
  source_file : Option String
  result_file : Option String
deriving DecidableEq, Repr

/-- The error enum of `repository/mongodb.rs`.  The wrapped
`mongodb::error::Error` values are modelled as their message. -/
inductive MongoRepoError where
  | ConnectionError (e : String)
  | QueryError (e : String)
  | InsertError (e : String)
  | UpdateError (e : String)
  | DeserializationError (msg : String)
  | InvalidTaskState (s : String)
  | NotFound
deriving DecidableEq, Repr

/-- The MongoDB collection: an association list from the
`task_global_id` key to the stored document. -/
abbrev Store := List (String × Document)

/-- The driver's `find_one` with filter on `task_global_id`. -/
def find_one : Store → String → Option Document
  | [], _ => none
  | (k, d) :: rest, id => if k = id then some d else find_one rest id

/-- The driver's `update_one` with `upsert(true)` filtered on
`task_global_id`: replace the matched document, or insert. -/
def upsert : Store → String → Document → Store
  | [], k, d => [(k, d)]
  | (k', d') :: rest, k, d =>
      if k' = k then (k, d) :: rest else (k', d') :: upsert rest k d

namespace MongoRepository

/-- Reading one string field, as each `doc.get_str(..).map_err(..)`
in `document_to_task` does. -/
def get_str (field : Option String) (msg : String) :
    Except MongoRepoError String :=
  match field with
  | some s => Except.ok s
  | none => Except.error (MongoRepoError.DeserializationError msg)

/-- `MongoRepository::document_to_task` (mongodb.rs lines 150-201),
with each `?` spelled as the match it desugars to. -/
def document_to_task (doc : Document) : Except MongoRepoError Task :=
  match get_str doc.user_uuid "Missing or invalid user_uuid" with
  | Except.error e => Except.error e
  | Except.ok user_uuid =>
  match get_str doc.task_uuid "Missing or invalid task_uuid" with
  | Except.error e => Except.error e
  | Except.ok task_uuid =>
  match get_str doc.task_type "Missing or invalid task_type" with
  | Except.error e => Except.error e
  | Except.ok task_type =>
  match get_str doc.state "Missing or invalid state" with
  | Except.error e => Except.error e
  | Except.ok state_str =>
  match TaskState.from_str state_str with
  | none => Except.error (MongoRepoError.InvalidTaskState state_str)
  | some state =>
  match get_str doc.source_file "Missing or invalid source_file" with
  | Except.error e => Except.error e
  | Except.ok source_file =>
  let result_file := match doc.result_file with
    | some val => some val
    | none => none
  Except.ok
    { user_uuid := user_uuid
      task_uuid := task_uuid
      task_type := task_type
      state := state
      source_file := source_file
      result_file := result_file }

/-- The `doc!` block of `put_task` (mongodb.rs lines 86-94). -/
def task_to_document (task : Task) : Document :=
  { user_uuid := some task.user_uuid
    task_uuid := some task.task_uuid
    task_global_id := some task.get_global_id
    task_type := some task.task_type
    state := some task.state.to_string
    source_file := some task.source_file
    result_file := task.result_file }

/-- `MongoRepository::put_task` (mongodb.rs lines 82-122), the
successful-write path: upsert keyed by `task_global_id`. -/
def put_task (s : Store) (task : Task) : Store :=
  upsert s task.get_global_id (task_to_document task)

/-- `MongoRepository::get_task` (mongodb.rs lines 124-148) as a
function of the driver's `find_one` outcome: `Ok(Some doc)` is decoded
(decode failure collapses to `None`), `Ok(None)` is `None`, and a
driver error also collapses to `None`. -/
def get_task_from_find (find : Except String (Option Document)) :
    Option Task :=
  match find with
  | Except.ok (some doc) =>
      match document_to_task doc with
      | Except.ok task => some task
      | Except.error _ => none
  | Except.ok none => none
  | Except.error _ => none

/-- `MongoRepository::get_task` instantiated with a successful driver
lookup against the store. -/
def get_task (s : Store) (task_id : String) : Option Task :=
  get_task_from_find (Except.ok (find_one s task_id))

end MongoRepository

/-- The `TaskError` enum of `api/task.rs`. -/
inductive TaskError where
  | TaskNotFound
  | TaskUpdateFailure
  | TaskCreationFailure
  | BadTaskRequest
deriving DecidableEq, Repr

/-- `ResponseError::status_code` (api/task.rs lines 55-62). -/
def TaskError.status_code : TaskError → Nat
  | .TaskNotFound => 404
  | .TaskUpdateFailure => 424
  | .TaskCreationFailure => 424
  | .BadTaskRequest => 400

/-- The `derive_more::Display` rendering used as the error response
body by `error_response` (api/task.rs lines 49-53): the variant name. -/
def TaskError.to_string : TaskError → String
  | .TaskNotFound => "TaskNotFound"
  | .TaskUpdateFailure => "TaskUpdateFailure"
  | .TaskCreationFailure => "TaskCreationFailure"
  | .BadTaskRequest => "BadTaskRequest"

/-- The `TaskIdentifier` response body of `api/task.rs`. -/
structure TaskIdentifier where
  task_global_id : String
deriving DecidableEq, Repr

namespace Api

/-- The `get_task` handler (api/task.rs lines 74-87). -/
def get_task (s : Store) (id : String) :
    Except TaskError Task :=
  match MongoRepository.get_task s id with
  | some task => Except.ok task
  | none => Except.error TaskError.TaskNotFound

/-- The `submit_task` handler (api/task.rs lines 90-123).  `put_ok`
and `enqueue_ok` are the outcomes of the MongoDB write and the Redis
push; the handler returns `(result, store, queue)`. -/
def submit_task (s : Store) (q : List String)
    (user_id task_type source_file : String) (task_uuid : String)
    (put_ok enqueue_ok : Bool) :
    Except TaskError TaskIdentifier × Store × List String :=
  let task := Task.new user_id task_type source_file task_uuid
  let task_identifier := task.get_global_id
  if put_ok then
    if enqueue_ok then
      (Except.ok { task_global_id := task_identifier },
        MongoRepository.put_task s task, q ++ [task_identifier])
    else
      -- enqueue failed: the error is logged and success returned
      (Except.ok { task_global_id := task_identifier },
        MongoRepository.put_task s task, q)
  else
    (Except.error TaskError.TaskCreationFailure, s, q)

/-- The private `state_transition` helper (api/task.rs lines
126-151); `put_ok` is the outcome of the MongoDB write. -/
def state_transition (s : Store) (task_global_id : String)
    (new_state : TaskState) (result_file : Option String)
    (put_ok : Bool) :
    Except TaskError TaskIdentifier × Store :=
  match MongoRepository.get_task s task_global_id with
  | none => (Except.error TaskError.TaskNotFound, s)
  | some task =>
      if !task.can_transition_to new_state then
        (Except.error TaskError.BadTaskRequest, s)
      else
        let task' := { task with state := new_state,
                                 result_file := result_file }
        let task_identifier := task'.get_global_id
        if put_ok then
          (Except.ok { task_global_id := task_identifier },
            MongoRepository.put_task s task')
        else
          (Except.error TaskError.TaskUpdateFailure, s)

/-- The `start_task` handler (api/task.rs lines 154-166). -/
def start_task (s : Store) (id : String) (put_ok : Bool) :
    Except TaskError TaskIdentifier × Store :=
  state_transition s id TaskState.InProgress none put_ok

/-- The `pause_task` handler (api/task.rs lines 168-180). -/
def pause_task (s : Store) (id : String) (put_ok : Bool) :
    Except TaskError TaskIdentifier × Store :=
  state_transition s id TaskState.Paused none put_ok

/-- The `fail_task` handler (api/task.rs lines 182-194). -/
def fail_task (s : Store) (id : String) (put_ok : Bool) :
    Except TaskError TaskIdentifier × Store :=
  state_transition s id TaskState.Failed none put_ok

/-- The `complete_task` handler (api/task.rs lines 196-209). -/
def complete_task (s : Store) (id : String) (result_file : String)
    (put_ok : Bool) :
    Except TaskError TaskIdentifier × Store :=
  state_transition s id TaskState.Completed (some result_file) put_ok

/-- The HTTP response a transition handler produces: `200` with the
identifier body on success, otherwise the error's status code and its
`Display` body (api/task.rs lines 48-62). -/
def transition_response (r : Except TaskError TaskIdentifier) :
    Nat × String :=
  match r with
  | Except.ok tid => (200, tid.task_global_id)
  | Except.error e => (e.status_code, e.to_string)

end Api

namespace Worker

/-- The worker's `update_task_state` (worker/src/main.rs lines
158-172) as a function of the transport outcome of the PUT: a
transport error propagates (with context), but a delivered response is
never inspected — the function returns `Ok(())` whatever the status
code. -/
def update_task_state (send_result : Except String (Nat × String)) :
    Except String Unit :=
  match send_result with
  | Except.error e => Except.error e
  | Except.ok _ => Except.ok ()

/-- The worker's `complete_task` (worker/src/main.rs lines 174-193):
same shape — the delivered response's status is never inspected. -/
def complete_task (send_result : Except String (Nat × String)) :
    Except String Unit :=
  match send_result with
  | Except.error e => Except.error e
  | Except.ok _ => Except.ok ()

/-- The body decode in the worker's `get_task` (worker/src/main.rs
lines 150-153): `response.json::<Task>()` succeeds exactly when the
body is the JSON serialization of a `Task`, which the API produces
only on the `Json(task)` success path; the API's error responses carry
a plain variant-name body (for example `TaskNotFound`), on which the
decode fails.  The response is therefore modelled semantically as the
handler result it renders. -/
def decode_task_response (resp : Except TaskError Task) :
    Except String Task :=
  match resp with
  | Except.ok task => Except.ok task
  | Except.error _ => Except.error "Failed to parse task JSON"

/-- The worker's `get_task` (worker/src/main.rs lines 142-156) as a
function of the transport outcome carrying the API's handler result. -/
def get_task (send_result : Except String (Except TaskError Task)) :
    Except String Task :=
  match send_result with
  | Except.error e => Except.error e
  | Except.ok resp => decode_task_response resp

/-- `execute_task_processing` (worker/src/main.rs lines 196-210):
always succeeds with a dummy result path derived from the task. -/
def execute_task_processing (task : Task) : String :=
  "processed_" ++ task.task_uuid ++ ".result"

/-- `process_task` (worker/src/main.rs lines 105-140) composed with
the Task Service handlers over the store, with every transport
delivered and every MongoDB write succeeding (the scenario of §8
Scenario D is about the store contents, not the transports).  Since
`execute_task_processing` always returns `Ok`, the `fail` branch of
the source is unreachable and the composition takes the complete
path. -/
def process_task (s : Store) (task_id : String) :
    Except String Unit × Store :=
  let start_step := Api.start_task s task_id true
  match update_task_state
      (Except.ok (Api.transition_response start_step.1)) with
  | Except.error e => (Except.error e, start_step.2)
  | Except.ok _ =>
      match get_task (Except.ok (Api.get_task start_step.2 task_id)) with
      | Except.error e => (Except.error e, start_step.2)
      | Except.ok task =>
          let result_file := execute_task_processing task
          let comp := Api.complete_task start_step.2 task_id result_file true
          match complete_task
              (Except.ok (Api.transition_response comp.1)) with
          | Except.error e => (Except.error e, comp.2)
          | Except.ok _ => (Except.ok (), comp.2)

/-- What the main loop (worker/src/main.rs lines 59-68) does with one
iteration's outcome. -/
inductive LoopAction where
  | proceed
  | proceed_after_backoff
deriving DecidableEq, Repr

/-- One turn of the worker's main loop: an `Err` is logged and
followed by a 5-second sleep, then the loop continues; an `Ok` loops
immediately.  Neither outcome leaves the loop. -/
def main_loop_step (process_result : Except String Unit) : LoopAction :=
  match process_result with
  | Except.error _ => LoopAction.proceed_after_backoff
  | Except.ok _ => LoopAction.proceed

end Worker

/-! Helper lemmas shared by the claim theorems. -/

/-- Lookup after upsert: the upserted key maps to the new document,
every other key is untouched. -/
theorem find_one_upsert (s : Store) (k : String) (d : Document)
    (k' : String) :
    find_one (upsert s k d) k' =
      if k' = k then some d else find_one s k' := by
  induction s with
  | nil =>
      simp only [upsert, find_one]
      rcases eq_or_ne k' k with h | h <;> simp_all [eq_comm]
  | cons hd tl ih =>
      obtain ⟨a, b⟩ := hd
      simp only [upsert]
      rcases eq_or_ne a k with hak | hak
      · subst hak
        simp only [if_pos rfl, find_one]
        rcases eq_or_ne a k' with h | h <;> simp_all [eq_comm]
      · simp only [if_neg hak, find_one, ih]
        rcases eq_or_ne a k' with h | h <;> simp_all [eq_comm]

/-- Parsing back the rendered state name recovers the state. -/
theorem from_str_to_string (st : TaskState) :
    TaskState.from_str st.to_string = some st := by
  cases st <;> rfl

/-- Decoding the document written for a task recovers the task, field
for field. -/
theorem document_to_task_task_to_document (t : Task) :
    MongoRepository.document_to_task (MongoRepository.task_to_document t) =
      Except.ok t := by
  obtain ⟨u, tu, ty, st, sf, rf⟩ := t
  cases st <;> cases rf <;> rfl

/-- Fetching a just-persisted task by its global id returns it; other
ids are untouched. -/
theorem get_task_put_task (s : Store) (t : Task) (id : String) :
    MongoRepository.get_task (MongoRepository.put_task s t) id =
      if id = t.get_global_id then some t
      else MongoRepository.get_task s id := by
  by_cases h : id = t.get_global_id <;>
    simp [MongoRepository.get_task, MongoRepository.put_task,
      MongoRepository.get_task_from_find, find_one_upsert, h,
      document_to_task_task_to_document]

/-- The documented task invariant: `result_file` is absent unless the
state is `Completed`. -/
def ValidTask (t : Task) : Prop :=
  t.result_file.isSome = true → t.state = TaskState.Completed

instance : DecidablePred ValidTask := fun t => by
  unfold ValidTask; infer_instance

/-- Every task decodable from the store satisfies the invariant. -/
def StoreValid (s : Store) : Prop :=
  ∀ id t, MongoRepository.get_task s id = some t → ValidTask t

/-- An empty collection trivially satisfies the store invariant. -/
theorem store_valid_nil : StoreValid [] := by
  intro id t h
  simp [MongoRepository.get_task, MongoRepository.get_task_from_find,
    find_one] at h

/-- Persisting a task satisfying the invariant preserves the store
invariant. -/
theorem store_valid_put (s : Store) (t : Task) (hs : StoreValid s)
    (ht : ValidTask t) : StoreValid (MongoRepository.put_task s t) := by
  intro id t' h
  rw [get_task_put_task] at h
  by_cases hid : id = t.get_global_id
  · rw [if_pos hid] at h
    cases h
    exact ht
  · rw [if_neg hid] at h
    exact hs id t' h

/-- What `state_transition` does to the store: it either leaves it
unchanged, or (on a validated transition with a successful write)
upserts the fetched task with the new state and result file. -/
theorem state_transition_store (s : Store) (id : String)
    (tgt : TaskState) (rf : Option String) (put_ok : Bool) :
    (Api.state_transition s id tgt rf put_ok).2 = s ∨
    ∃ task, MongoRepository.get_task s id = some task ∧
      task.can_transition_to tgt = true ∧ put_ok = true ∧
      (Api.state_transition s id tgt rf put_ok).2 =
        MongoRepository.put_task s
          { task with state := tgt, result_file := rf } := by
  cases hget : MongoRepository.get_task s id with
  | none => left; simp [Api.state_transition, hget]
  | some task =>
      by_cases hcan : task.can_transition_to tgt = true
      · cases put_ok with
        | false => left; simp [Api.state_transition, hget, hcan]
        | true =>
            right
            exact ⟨task, rfl, hcan, rfl,
              by simp [Api.state_transition, hget, hcan]⟩
      · left; simp [Api.state_transition, hget, hcan]

/-- What a successful `state_transition` means: the task was fetched,
the transition was validated, the write succeeded, the returned
identifier is the updated task's global id, and the store holds the
updated task. -/
theorem state_transition_ok (s : Store) (id : String)
    (tgt : TaskState) (rf : Option String) (put_ok : Bool)
    (tid : TaskIdentifier)
    (h : (Api.state_transition s id tgt rf put_ok).1 = Except.ok tid) :
    ∃ task, MongoRepository.get_task s id = some task ∧
      task.can_transition_to tgt = true ∧ put_ok = true ∧
      tid = { task_global_id :=
        Task.get_global_id { task with state := tgt, result_file := rf } } ∧
      (Api.state_transition s id tgt rf put_ok).2 =
        MongoRepository.put_task s
          { task with state := tgt, result_file := rf } := by
  cases hget : MongoRepository.get_task s id with
  | none => simp [Api.state_transition, hget] at h
  | some task =>
      by_cases hcan : task.can_transition_to tgt = true
      · cases put_ok with
        | false => simp [Api.state_transition, hget, hcan] at h
        | true =>
            simp only [Api.state_transition, hget, hcan, Bool.not_true,
              Bool.false_eq_true, if_false, if_true] at h
            cases h
            exact ⟨task, rfl, hcan, rfl, rfl,
              by simp [Api.state_transition, hget, hcan]⟩
      · simp [Api.state_transition, hget, hcan] at h

/-- Record updates of state and result file do not move the task's
global id. -/
theorem get_global_id_update (task : Task) (tgt : TaskState)
    (rf : Option String) :
    Task.get_global_id { task with state := tgt, result_file := rf } =
      task.get_global_id := by
  cases task
  rfl

/-! Concrete fixtures used by the witnesses and counterexamples. -/

/-- A stored document for a Completed task with a result file. -/
def sample_completed_doc : Document :=
  ⟨some "u1", some "t1", some "u1_t1", some "render",
    some "Completed", some "s3://in/a", some "s3://out/a"⟩

/-- The task `sample_completed_doc` decodes to. -/
def sample_completed_task : Task :=
  ⟨"u1", "t1", "render", TaskState.Completed, "s3://in/a",
    some "s3://out/a"⟩

/-- A store holding only `sample_completed_doc`. -/
def sample_completed_store : Store := [("u1_t1", sample_completed_doc)]

/-- A stored document for a Created task. -/
def sample_created_doc : Document :=
  ⟨some "u1", some "t1", some "u1_t1", some "render",
    some "Created", some "s3://in/a", none⟩

/-- The task `sample_created_doc` decodes to. -/
def sample_created_task : Task :=
  ⟨"u1", "t1", "render", TaskState.Created, "s3://in/a", none⟩

/-- A store holding only `sample_created_doc`. -/
def sample_created_store : Store := [("u1_t1", sample_created_doc)]

/-- A stored document for an InProgress task. -/
def sample_inprogress_doc : Document :=
  ⟨some "u1", some "t1", some "u1_t1", some "render",
    some "InProgress", some "s3://in/a", none⟩

/-- The task `sample_inprogress_doc` decodes to. -/
def sample_inprogress_task : Task :=
  ⟨"u1", "t1", "render", TaskState.InProgress, "s3://in/a", none⟩

/-- A stored document whose `state` field holds an unknown value. -/
def sample_malformed_doc : Document :=
  ⟨some "u1", some "t1", some "u1_t1", some "render",
    some "Bogus", some "s3://in/a", none⟩

/-- A store holding only `sample_malformed_doc`. -/
def sample_malformed_store : Store := [("u1_t1", sample_malformed_doc)]

/-! The claims. -/

/-- C1: on a stored task, `state_transition` (backing
start/pause/fail/complete) succeeds only if the pair of current and
target state is in the §4.1 table; every pair outside the table fails
with `BadTaskRequest` and leaves the store unchanged; and the table is
exactly Created→InProgress, InProgress→Paused/Completed/Failed,
Paused→InProgress, with no transition out of Completed or Failed — in
particular a second start of an InProgress task is rejected. -/
theorem c1_transition_gate (s : Store) (id : String) (tgt : TaskState)
    (rf : Option String) (put_ok : Bool) (task : Task)
    (hget : MongoRepository.get_task s id = some task) :
    ((∃ tid, (Api.state_transition s id tgt rf put_ok).1 = Except.ok tid) →
      allowed_transition task.state tgt = true)
    ∧ (allowed_transition task.state tgt = false →
        Api.state_transition s id tgt rf put_ok =
          (Except.error TaskError.BadTaskRequest, s))
    ∧ (∀ a b : TaskState, allowed_transition a b = true ↔
        ((a = TaskState.Created ∧ b = TaskState.InProgress)
          ∨ (a = TaskState.InProgress ∧
              (b = TaskState.Paused ∨ b = TaskState.Completed
                ∨ b = TaskState.Failed))
          ∨ (a = TaskState.Paused ∧ b = TaskState.InProgress)))
    ∧ allowed_transition TaskState.InProgress TaskState.InProgress = false
    ∧ (∀ b, allowed_transition TaskState.Completed b = false
        ∧ allowed_transition TaskState.Failed b = false) := by
  refine ⟨?_, ?_, by decide, by decide, by decide⟩
  · rintro ⟨tid, h⟩
    obtain ⟨task', hget', hcan, -⟩ :=
      state_transition_ok s id tgt rf put_ok tid h
    rw [hget] at hget'
    cases hget'
    exact hcan
  · intro hno
    simp [Api.state_transition, hget, Task.can_transition_to, hno]

/-- Witness for C1: a store holding a Completed task; a second start
request is rejected with `BadTaskRequest` and the store is unchanged. -/
theorem c1_transition_gate_witness :
    MongoRepository.get_task sample_completed_store "u1_t1" =
      some sample_completed_task
    ∧ Api.state_transition sample_completed_store "u1_t1"
        TaskState.InProgress none true =
      (Except.error TaskError.BadTaskRequest, sample_completed_store) :=
  ⟨by decide,
    (c1_transition_gate sample_completed_store "u1_t1"
      TaskState.InProgress none true sample_completed_task
      (by decide)).2.1 (by decide)⟩

/-- C2: if the MongoDB write fails, `submit_task` fails with
`TaskCreationFailure` and neither store nor queue changes; if the
write succeeds but the Redis push fails, `submit_task` still answers
success with the new task's global id and the queue is unchanged. -/
theorem c2_submit_asymmetry (s : Store) (q : List String)
    (user_id task_type source_file task_uuid : String)
    (enqueue_ok : Bool) :
    Api.submit_task s q user_id task_type source_file task_uuid
        false enqueue_ok =
      (Except.error TaskError.TaskCreationFailure, s, q)
    ∧ (Api.submit_task s q user_id task_type source_file task_uuid
        true false).1 =
      Except.ok { task_global_id :=
        (Task.new user_id task_type source_file task_uuid).get_global_id }
    ∧ (Api.submit_task s q user_id task_type source_file task_uuid
        true false).2.2 = q :=
  ⟨rfl, rfl, rfl⟩

/-- A store holding a single document that decodes to a task
satisfying the invariant satisfies the store invariant. -/
theorem store_valid_singleton (k : String) (d : Document) (t0 : Task)
    (hdec : MongoRepository.document_to_task d = Except.ok t0)
    (ht : ValidTask t0) : StoreValid [(k, d)] := by
  intro id t hget
  simp only [MongoRepository.get_task, MongoRepository.get_task_from_find,
    find_one] at hget
  by_cases h : k = id
  · rw [if_pos h] at hget
    simp [hdec] at hget
    exact hget ▸ ht
  · rw [if_neg h] at hget
    simp at hget

/-- `state_transition` preserves the store invariant whenever the
result file it writes is only present for a Completed target. -/
theorem state_transition_preserves_valid (s : Store) (id : String)
    (tgt : TaskState) (rf : Option String) (put_ok : Bool)
    (hs : StoreValid s)
    (hrf : rf.isSome = true → tgt = TaskState.Completed) :
    StoreValid (Api.state_transition s id tgt rf put_ok).2 := by
  rcases state_transition_store s id tgt rf put_ok with h | ⟨task, -, -, -, h⟩
  · rw [h]; exact hs
  · rw [h]
    exact store_valid_put _ _ hs hrf

/-- C3: `submit` produces a task in state Created with no result
file; the invariant that `result_file` is absent unless the state is
Completed holds of the submitted task and is preserved across the
store by `submit_task` and by every transition handler — start,
pause and fail write `result_file = None`, only complete writes
`Some`. -/
theorem c3_result_file_invariant (s : Store) (q : List String)
    (user_id task_type source_file task_uuid : String)
    (put_ok enqueue_ok : Bool) (id result_file : String)
    (hs : StoreValid s) :
    (Task.new user_id task_type source_file task_uuid).state =
        TaskState.Created
    ∧ (Task.new user_id task_type source_file task_uuid).result_file = none
    ∧ ValidTask (Task.new user_id task_type source_file task_uuid)
    ∧ StoreValid (Api.submit_task s q user_id task_type source_file
        task_uuid put_ok enqueue_ok).2.1
    ∧ StoreValid (Api.start_task s id put_ok).2
    ∧ StoreValid (Api.pause_task s id put_ok).2
    ∧ StoreValid (Api.fail_task s id put_ok).2
    ∧ StoreValid (Api.complete_task s id result_file put_ok).2 := by
  have hnew : ValidTask (Task.new user_id task_type source_file task_uuid) := by
    intro h
    simp [Task.new] at h
  refine ⟨rfl, rfl, hnew, ?_, ?_, ?_, ?_, ?_⟩
  · cases put_ok with
    | false => exact hs
    | true =>
        cases enqueue_ok with
        | false => exact store_valid_put _ _ hs hnew
        | true => exact store_valid_put _ _ hs hnew
  · exact state_transition_preserves_valid s id _ none put_ok hs (by simp)
  · exact state_transition_preserves_valid s id _ none put_ok hs (by simp)
  · exact state_transition_preserves_valid s id _ none put_ok hs (by simp)
  · exact state_transition_preserves_valid s id _ (some result_file)
      put_ok hs (fun _ => rfl)

/-- Witness for C3: a store holding a Created task satisfies the
invariant, and starting that task preserves it. -/
theorem c3_result_file_invariant_witness :
    StoreValid sample_created_store
    ∧ ValidTask (Task.new "u1" "render" "s3://in/a" "t1")
    ∧ StoreValid (Api.start_task sample_created_store "u1_t1" true).2 :=
  have hs : StoreValid sample_created_store :=
    store_valid_singleton "u1_t1" sample_created_doc sample_created_task
      (by decide) (by decide)
  ⟨hs,
    (c3_result_file_invariant sample_created_store [] "u1" "render"
      "s3://in/a" "t1" true true "u1_t1" "r" hs).2.2.1,
    (c3_result_file_invariant sample_created_store [] "u1" "render"
      "s3://in/a" "t1" true true "u1_t1" "r" hs).2.2.2.2.1⟩

/-- C5: persisting any task satisfying the result-file invariant and
fetching it back by its global id returns a task equal to the
original — equality of `Task` values is field-wise equality on
user_uuid, task_uuid, task_type, state, source_file and result_file. -/
theorem c5_round_trip (s : Store) (t : Task) (h : ValidTask t) :
    MongoRepository.get_task (MongoRepository.put_task s t)
        t.get_global_id = some t := by
  simp [get_task_put_task]

/-- Witness for C5: round trip of a concrete Completed task. -/
theorem c5_round_trip_witness :
    ValidTask sample_completed_task
    ∧ MongoRepository.get_task
        (MongoRepository.put_task [] sample_completed_task)
        sample_completed_task.get_global_id = some sample_completed_task :=
  ⟨by decide, c5_round_trip [] sample_completed_task (by decide)⟩

/-- C6: the store's get returns `None` in exactly three situations —
the driver lookup errors, no record matches, or the matching record
fails to decode — and returns `Some task` exactly when a matching
record decodes to `task`; all three `None` sources are the same value,
so callers cannot tell them apart. -/
theorem c6_get_none_cases (r : Except String (Option Document)) :
    (MongoRepository.get_task_from_find r = none ↔
      ((∃ e, r = Except.error e) ∨ r = Except.ok none
        ∨ ∃ doc err, r = Except.ok (some doc)
            ∧ MongoRepository.document_to_task doc = Except.error err))
    ∧ ∀ t, (MongoRepository.get_task_from_find r = some t ↔
        ∃ doc, r = Except.ok (some doc)
          ∧ MongoRepository.document_to_task doc = Except.ok t) := by
  rcases r with e | o
  · simp [MongoRepository.get_task_from_find]
  · rcases o with - | doc
    · simp [MongoRepository.get_task_from_find]
    · cases hdec : MongoRepository.document_to_task doc with
      | ok task => simp [MongoRepository.get_task_from_find, hdec]
      | error err => simp [MongoRepository.get_task_from_find, hdec]

/-- C8: decoding a stored record whose other fields are readable but
whose state string is none of the five known states fails with
`InvalidTaskState` carrying the offending string — no default state is
substituted. -/
theorem c8_invalid_state (doc : Document) (u tu ty st : String)
    (h1 : doc.user_uuid = some u) (h2 : doc.task_uuid = some tu)
    (h3 : doc.task_type = some ty) (h4 : doc.state = some st)
    (h5 : st ∉ ["Created", "InProgress", "Paused", "Completed", "Failed"]) :
    MongoRepository.document_to_task doc =
      Except.error (MongoRepoError.InvalidTaskState st) := by
  simp only [List.mem_cons, List.not_mem_nil, or_false, not_or] at h5
  obtain ⟨n1, n2, n3, n4, n5⟩ := h5
  simp [MongoRepository.document_to_task, MongoRepository.get_str,
    h1, h2, h3, h4, TaskState.from_str, n1, n2, n3, n4, n5]

/-- Witness for C8: the concrete malformed document with state
`Bogus` decodes to `InvalidTaskState "Bogus"`. -/
theorem c8_invalid_state_witness :
    MongoRepository.document_to_task sample_malformed_doc =
      Except.error (MongoRepoError.InvalidTaskState "Bogus") :=
  c8_invalid_state sample_malformed_doc "u1" "t1" "render" "Bogus"
    rfl rfl rfl rfl (by decide)

/-- C9: a successful state transition changes only `state` and
`result_file`: the task now stored under the returned identifier
agrees with the fetched task on user_uuid, task_uuid (hence on the
derived global id), task_type and source_file, and the identifier
returned in the response is the fetched task's global id. -/
theorem c9_transition_frame (s : Store) (id : String) (tgt : TaskState)
    (rf : Option String) (put_ok : Bool) (task : Task)
    (tid : TaskIdentifier)
    (hget : MongoRepository.get_task s id = some task)
    (h : (Api.state_transition s id tgt rf put_ok).1 = Except.ok tid) :
    tid.task_global_id = task.get_global_id
    ∧ ∃ task', MongoRepository.get_task
        (Api.state_transition s id tgt rf put_ok).2 tid.task_global_id =
          some task'
      ∧ task'.user_uuid = task.user_uuid
      ∧ task'.task_uuid = task.task_uuid
      ∧ task'.get_global_id = task.get_global_id
      ∧ task'.task_type = task.task_type
      ∧ task'.source_file = task.source_file
      ∧ task'.state = tgt
      ∧ task'.result_file = rf := by
  obtain ⟨task0, hget0, hcan, hput, htid, hstore⟩ :=
    state_transition_ok s id tgt rf put_ok tid h
  rw [hget] at hget0
  obtain rfl : task = task0 := Option.some.inj hget0
  subst htid
  rw [hstore, get_task_put_task]
  refine ⟨get_global_id_update task tgt rf,
    ⟨{ task with state := tgt, result_file := rf }, ?_, ?_, ?_, ?_, ?_, ?_,
      rfl, rfl⟩⟩
  · rw [if_pos rfl]
  · cases task; rfl
  · cases task; rfl
  · exact get_global_id_update task tgt rf
  · cases task; rfl
  · cases task; rfl

/-- Witness for C9: completing a concrete InProgress task keeps its
identity fields and stores the new state and result file. -/
theorem c9_transition_frame_witness :
    MongoRepository.get_task
        [("u1_t1", sample_inprogress_doc)] "u1_t1" =
      some sample_inprogress_task
    ∧ (Api.state_transition [("u1_t1", sample_inprogress_doc)] "u1_t1"
        TaskState.Completed (some "s3://out/a") true).1 =
      Except.ok { task_global_id := "u1_t1" }
    ∧ ("u1_t1" : String) = sample_inprogress_task.get_global_id :=
  ⟨by decide, by decide,
    ((c9_transition_frame [("u1_t1", sample_inprogress_doc)] "u1_t1"
      TaskState.Completed (some "s3://out/a") true
      sample_inprogress_task { task_global_id := "u1_t1" }
      (by decide) (by decide)).1).symm⟩

/-- C10: the worker's `update_task_state` and `complete_task` helpers
succeed on any delivered HTTP response whatever its status code (404,
400 and 424 included) and fail only when the transport itself fails;
in particular every API-level rejection rendered as a response leaves
them returning success. -/
theorem c10_worker_ignores_status (resp : Nat × String) (e : String) :
    Worker.update_task_state (Except.ok resp) = Except.ok ()
    ∧ Worker.complete_task (Except.ok resp) = Except.ok ()
    ∧ Worker.update_task_state (Except.error e) = Except.error e
    ∧ Worker.complete_task (Except.error e) = Except.error e
    ∧ ∀ err : TaskError, Worker.update_task_state
        (Except.ok (Api.transition_response (Except.error err))) =
      Except.ok () :=
  ⟨rfl, rfl, rfl, rfl, fun _ => rfl⟩

/-- C4 counterexample: a stored record that fails to decode (unknown
state `Bogus`) is reported by the GET handler, and likewise by a
transition request on the same id, as `TaskNotFound` (status 404),
not as a persistence-failure category — so a read error on a stored
record is coerced into NotFound, contrary to the claim. -/
theorem c4_counterexample :
    MongoRepository.document_to_task sample_malformed_doc =
      Except.error (MongoRepoError.InvalidTaskState "Bogus")
    ∧ Api.get_task sample_malformed_store "u1_t1" =
      Except.error TaskError.TaskNotFound
    ∧ (Api.state_transition sample_malformed_store "u1_t1"
        TaskState.InProgress none true).1 =
      Except.error TaskError.TaskNotFound
    ∧ TaskError.TaskNotFound.status_code = 404 :=
  ⟨by decide, by decide, by decide, rfl⟩

/-- C4 amended: store WRITE failures surface as the 424
persistence-failure category (`TaskUpdateFailure` on transitions,
`TaskCreationFailure` on submission), distinct from NotFound (404)
and BadTaskRequest (400); store READ failures however — a malformed
stored record or a failed lookup — are collapsed to `None` by the
store layer, so the GET handler and every transition request on that
id alike report `TaskNotFound`. -/
theorem c4_amended (s s2 : Store) (q : List String) (id id2 : String)
    (tgt : TaskState) (rf : Option String) (task : Task)
    (u ty sf uuid : String) (enq : Bool) (doc : Document)
    (e : MongoRepoError)
    (hget : MongoRepository.get_task s id = some task)
    (hcan : task.can_transition_to tgt = true)
    (hdoc : find_one s2 id2 = some doc)
    (hdec : MongoRepository.document_to_task doc = Except.error e) :
    (Api.state_transition s id tgt rf false).1 =
      Except.error TaskError.TaskUpdateFailure
    ∧ (Api.submit_task s q u ty sf uuid false enq).1 =
      Except.error TaskError.TaskCreationFailure
    ∧ TaskError.TaskUpdateFailure.status_code = 424
    ∧ TaskError.TaskCreationFailure.status_code = 424
    ∧ TaskError.TaskNotFound.status_code = 404
    ∧ TaskError.BadTaskRequest.status_code = 400
    ∧ Api.get_task s2 id2 = Except.error TaskError.TaskNotFound
    ∧ ∀ (tgt2 : TaskState) (rf2 : Option String) (put_ok2 : Bool),
        (Api.state_transition s2 id2 tgt2 rf2 put_ok2).1 =
          Except.error TaskError.TaskNotFound := by
  have hnone : MongoRepository.get_task s2 id2 = none := by
    simp [MongoRepository.get_task, MongoRepository.get_task_from_find,
      hdoc, hdec]
  refine ⟨?_, rfl, rfl, rfl, rfl, rfl, ?_, ?_⟩
  · simp [Api.state_transition, hget, hcan]
  · simp [Api.get_task, hnone]
  · intro tgt2 rf2 put_ok2
    simp [Api.state_transition, hnone]

/-- Witness for C4 amended: a failed write on a startable task gives
424, and the malformed-record store gives 404 both on GET and on a
start request. -/
theorem c4_amended_witness :
    MongoRepository.get_task sample_created_store "u1_t1" =
      some sample_created_task
    ∧ sample_created_task.can_transition_to TaskState.InProgress = true
    ∧ find_one sample_malformed_store "u1_t1" = some sample_malformed_doc
    ∧ MongoRepository.document_to_task sample_malformed_doc =
      Except.error (MongoRepoError.InvalidTaskState "Bogus")
    ∧ (Api.state_transition sample_created_store "u1_t1"
        TaskState.InProgress none false).1 =
      Except.error TaskError.TaskUpdateFailure
    ∧ Api.get_task sample_malformed_store "u1_t1" =
      Except.error TaskError.TaskNotFound
    ∧ (Api.state_transition sample_malformed_store "u1_t1"
        TaskState.InProgress none true).1 =
      Except.error TaskError.TaskNotFound :=
  have h := c4_amended sample_created_store sample_malformed_store []
    "u1_t1" "u1_t1" TaskState.InProgress none sample_created_task
    "u" "ty" "sf" "uuid" true sample_malformed_doc
    (MongoRepoError.InvalidTaskState "Bogus")
    (by decide) (by decide) (by decide) (by decide)
  ⟨by decide, by decide, by decide, by decide, h.1, h.2.2.2.2.2.2.1,
    h.2.2.2.2.2.2.2 TaskState.InProgress none true⟩

/-- C7 counterexample: for a dequeued id absent from the store, the
API's start endpoint does answer NotFound (404 `TaskNotFound`), but
the worker's start call — `update_task_state`, which never inspects
the response status — returns success rather than NotFound. -/
theorem c7_counterexample :
    (Api.start_task [] "u1_t1" true).1 =
      Except.error TaskError.TaskNotFound
    ∧ Api.transition_response (Api.start_task [] "u1_t1" true).1 =
      (404, "TaskNotFound")
    ∧ Worker.update_task_state
        (Except.ok (Api.transition_response
          (Api.start_task [] "u1_t1" true).1)) = Except.ok () :=
  ⟨by decide, by decide, rfl⟩

/-- C7 amended: when the worker dequeues an id whose task no longer
exists in the store, its start call succeeds despite the API's 404
(the status is never inspected); the iteration instead fails at the
task-details fetch, whose error body does not parse as a Task, and the
main loop treats that as an iteration error: it logs, backs off and
proceeds to the next dequeue without crashing or terminating. -/
theorem c7_missing_task_loop_survives (s : Store) (id : String)
    (hmiss : MongoRepository.get_task s id = none) :
    Worker.process_task s id =
      (Except.error "Failed to parse task JSON", s)
    ∧ Worker.main_loop_step (Worker.process_task s id).1 =
      Worker.LoopAction.proceed_after_backoff := by
  have hstart : Api.start_task s id true =
      (Except.error TaskError.TaskNotFound, s) := by
    simp [Api.start_task, Api.state_transition, hmiss]
  have hget : Api.get_task s id = Except.error TaskError.TaskNotFound := by
    simp [Api.get_task, hmiss]
  have h1 : Worker.process_task s id =
      (Except.error "Failed to parse task JSON", s) := by
    simp [Worker.process_task, hstart, hget, Worker.update_task_state,
      Worker.get_task, Worker.decode_task_response]
  exact ⟨h1, by rw [h1]; rfl⟩

/-- Witness for C7 amended: the empty store. -/
theorem c7_missing_task_loop_survives_witness :
    MongoRepository.get_task [] "u1_t1" = none
    ∧ Worker.process_task [] "u1_t1" =
      (Except.error "Failed to parse task JSON", [])
    ∧ Worker.main_loop_step (Worker.process_task [] "u1_t1").1 =
      Worker.LoopAction.proceed_after_backoff :=
  have h := c7_missing_task_loop_survives [] "u1_t1" (by decide)
  ⟨by decide, h.1, h.2⟩

end TaskService
